import Mathlib

/-!
Verification development for the OpenFactCheck solver-registry and
pipeline-execution core (`openfactcheck/state.py`, `openfactcheck/solver.py`,
`openfactcheck/base.py`, `openfactcheck/evaluator/response/evaluate.py`),
via a shallow embedding: Python attribute dictionaries become association
lists, raising an exception becomes returning `Option.none` / `Except.error`,
and the mutable class table becomes an explicitly threaded environment.
-/

/-- Values stored in a `FactCheckerState` slot or a configuration mapping.
`null` embeds Python's `None`. -/
inductive Val where
  | null
  | str (s : String)
  | nat (n : Nat)
deriving Repr, DecidableEq

/-- Lookup in an association list (first match wins), the embedding of
reading a Python attribute/dict entry; `Option.none` embeds the key being
absent. -/
def lookupAssoc {κ α : Type} [DecidableEq κ] : List (κ × α) → κ → Option α
  | [], _ => Option.none
  | (k', v') :: rest, k => if k' = k then some v' else lookupAssoc rest k

/-- Insertion with Python-dict semantics: an existing key keeps its position
and gets the new value, a fresh key is appended at the end. This embeds both
`setattr` on an object's `__dict__` and `d[k] = v` on a dict. -/
def pyDictInsert {κ α : Type} [DecidableEq κ] : List (κ × α) → κ → α → List (κ × α)
  | [], k, v => [(k, v)]
  | (k', v') :: rest, k, v =>
    if k' = k then (k', v) :: rest else (k', v') :: pyDictInsert rest k v

/-- Embedding of `FactCheckerState`: the object's `__dict__`, an insertion
ordered mapping from attribute name to value. -/
structure FactCheckerState where
  attrs : List (String × Val)
deriving Repr, DecidableEq

/-- Embedding of `FactCheckerState.__init__`: binds `question` and `response`
as attributes (to the given values, `Val.null` standing for an unsupplied
`None`). -/
def FactCheckerState.init (question response : Val) : FactCheckerState :=
  ⟨[("question", question), ("response", response)]⟩

/-- Embedding of `hasattr(self, name)`. -/
def FactCheckerState.hasAttr (s : FactCheckerState) (nm : String) : Bool :=
  (lookupAssoc s.attrs nm).isSome

/-- Embedding of `FactCheckerState.set`: warns (first component `true`) when
the attribute already exists, then writes unconditionally; it never raises. -/
def FactCheckerState.set (s : FactCheckerState) (nm : String) (value : Val) :
    Bool × FactCheckerState :=
  (s.hasAttr nm, ⟨pyDictInsert s.attrs nm value⟩)

/-- Embedding of `FactCheckerState.get`: `Option.none` embeds the
`ValueError` raised when the attribute does not exist. -/
def FactCheckerState.get (s : FactCheckerState) (nm : String) : Option Val :=
  lookupAssoc s.attrs nm

/-- Embedding of `FactCheckerState.to_dict` (the snapshot persisted in a
stage record): the full attribute dictionary. -/
def FactCheckerState.to_dict (s : FactCheckerState) : List (String × Val) :=
  s.attrs

/-- The set of slot names present in a state, for stating "never written". -/
def FactCheckerState.slotNames (s : FactCheckerState) : List String :=
  s.attrs.map Prod.fst

theorem lookupAssoc_eq_none_of_not_mem {κ α : Type} [DecidableEq κ]
    (l : List (κ × α)) (k : κ)
    (h : k ∉ l.map Prod.fst) : lookupAssoc l k = Option.none := by
  induction l with
  | nil => rfl
  | cons p rest ih =>
    obtain ⟨k', v'⟩ := p
    simp only [List.map_cons, List.mem_cons] at h
    push_neg at h
    simp only [lookupAssoc, if_neg (Ne.symm h.1)]
    exact ih h.2

theorem lookupAssoc_isSome_of_mem {κ α : Type} [DecidableEq κ]
    (l : List (κ × α)) (k : κ)
    (h : k ∈ l.map Prod.fst) : (lookupAssoc l k).isSome := by
  induction l with
  | nil => simp at h
  | cons p rest ih =>
    obtain ⟨k', v'⟩ := p
    simp only [List.map_cons, List.mem_cons] at h
    by_cases he : k' = k
    · simp [lookupAssoc, he]
    · simp only [lookupAssoc, if_neg he]
      exact ih (h.resolve_left (fun hk => he hk.symm))

theorem lookupAssoc_pyDictInsert_self {κ α : Type} [DecidableEq κ]
    (l : List (κ × α)) (k : κ) (v : α) :
    lookupAssoc (pyDictInsert l k v) k = some v := by
  induction l with
  | nil => simp [pyDictInsert, lookupAssoc]
  | cons p rest ih =>
    obtain ⟨k', v'⟩ := p
    by_cases he : k' = k
    · simp [pyDictInsert, lookupAssoc, he]
    · simp [pyDictInsert, lookupAssoc, he, ih]

/-- A built pipeline entry as iterated by `ResponseEvaluator.evaluate`: the
solver's registered name paired with its declared input/output slot names
and its call operation. A solver invocation returns `some (cont, state)` on
normal return and `Option.none` when it raises. -/
structure PipelineEntry where
  name : String
  input_name : String
  output_name : String
  run : FactCheckerState → Option (Bool × FactCheckerState)

/-- The record appended by `ResponseEvaluator.persist_output` for one stage:
run index, solver name, continuation flag and the state snapshot. -/
structure StageRecord where
  idx : Nat
  solver : String
  cont : Bool
  state : List (String × Val)
deriving Repr, DecidableEq

/-- The event yielded by `evaluate_streaming` after each successful stage. -/
structure StreamEvent where
  index : Nat
  solver_name : String
  input_name : String
  output_name : String
  input : List (String × Val)
  output : List (String × Val)
  continue_run : Bool
deriving Repr, DecidableEq

/-- Embedding of the stage loop of `ResponseEvaluator.evaluate`. Arguments
are the remaining pipeline entries, the current run index, the working state
(`solver_output`) and the current output-name cursor. It returns the final
working state, the final output-name cursor, and the list of persisted
stage records, mirroring the Python loop exactly: on a normal return the
record is appended and the loop continues or breaks on `cont = false`; when
the solver raises, no record is appended, the cursor is reset to the failed
stage's input slot name and the loop breaks with the state unchanged. -/
def runPipeline : List PipelineEntry → Nat → FactCheckerState → String →
    FactCheckerState × String × List StageRecord
  | [], _, st, oname => (st, oname, [])
  | e :: rest, idx, st, _ =>
    match e.run st with
    | Option.none => (st, e.input_name, [])
    | some (cont, out) =>
      if cont then
        let r := runPipeline rest (idx + 1) out e.output_name
        (r.1, r.2.1, ⟨idx, e.name, cont, out.to_dict⟩ :: r.2.2)
      else (out, e.output_name, [⟨idx, e.name, cont, out.to_dict⟩])

/-- Embedding of `ResponseEvaluator.evaluate`: build the initial state from
`question`/`response`, start the cursor at `"response"`, run the loop, and
return `solver_output.get(output_name)` together with the records persisted
during the run. A first component of `Option.none` embeds the final `get`
raising `ValueError`; solver exceptions themselves are never propagated. -/
def evaluate (p : List PipelineEntry) (question response : Val) :
    Option Val × List StageRecord :=
  let r := runPipeline p 0 (FactCheckerState.init question response) "response"
  (r.1.get r.2.1, r.2.2)

/-- Embedding of the generator loop of `ResponseEvaluator.evaluate_streaming`:
identical control flow to `runPipeline`, but after each successful stage an
event is yielded (before the persistence write); a raising stage yields no
event and terminates the stream. Returns the yielded events and the
persisted records. -/
def streamPipeline : List PipelineEntry → Nat → FactCheckerState →
    List StreamEvent × List StageRecord
  | [], _, _ => ([], [])
  | e :: rest, idx, st =>
    match e.run st with
    | Option.none => ([], [])
    | some (cont, out) =>
      let ev : StreamEvent :=
        ⟨idx, e.name, e.input_name, e.output_name, st.attrs, out.attrs, cont⟩
      let rec_ : StageRecord := ⟨idx, e.name, cont, out.to_dict⟩
      if cont then
        let r := streamPipeline rest (idx + 1) out
        (ev :: r.1, rec_ :: r.2)
      else ([ev], [rec_])

/-- Embedding of `ResponseEvaluator.evaluate_streaming`: the sequence of
events yielded to the consumer for the given input. -/
def evaluate_streaming (p : List PipelineEntry) (question response : Val) :
    List StreamEvent :=
  (streamPipeline p 0 (FactCheckerState.init question response)).1

/-- Runs a list of pipeline entries in sequence, requiring every stage to
return normally with `cont = true`; returns the resulting state, or
`Option.none` if any stage raises or stops. Used to express "the first k
stages succeed" hypotheses. -/
def runAllOk : List PipelineEntry → FactCheckerState → Option FactCheckerState
  | [], st => some st
  | e :: rest, st =>
    match e.run st with
    | some (true, out) => runAllOk rest out
    | _ => Option.none

/-- A registered solver class: whether it extends `StandardTaskSolver`, and
its class attributes (which hold `name`, `input_name`, `output_name` and any
configuration keys applied by `init_solver`). -/
structure SolverClassData where
  isStandardTaskSolver : Bool
  attrs : List (String × Val)
deriving Repr, DecidableEq

/-- The process-wide mutable environment: `SOLVER_REGISTRY` (name to class
identity) and the table of class objects (identity to class data), which
embeds the fact that class attributes are shared, mutable state. -/
structure Env where
  registry : List (String × Nat)
  classes : List (Nat × SolverClassData)
deriving Repr, DecidableEq

/-- Applies a function to the class object with the given identity, leaving
the table unchanged when the identity is absent. -/
def updateCls : List (Nat × SolverClassData) → Nat →
    (SolverClassData → SolverClassData) → List (Nat × SolverClassData)
  | [], _, _ => []
  | (c, d) :: rest, cid, f =>
    if c = cid then (c, f d) :: rest else (c, d) :: updateCls rest cid f

/-- Embedding of `setattr(solver_cls, k, v)`: mutates the class object, so
the write is visible through every reference to that class. -/
def setClassAttr (env : Env) (cid : Nat) (k : String) (v : Val) : Env :=
  let f : SolverClassData → SolverClassData :=
    fun c => { c with attrs := pyDictInsert c.attrs k v }
  { env with classes := updateCls env.classes cid f }

/-- Reads a class attribute through the environment. -/
def classAttr (env : Env) (cid : Nat) (k : String) : Option Val :=
  match lookupAssoc env.classes cid with
  | some c => lookupAssoc c.attrs k
  | Option.none => Option.none

/-- Embedding of `Solver.register(name, input_name, output_name)` applied to
the class with identity `cid`. Mirrors the decorator body: if the name is
already in `SOLVER_REGISTRY` the existing class is returned and nothing else
happens; otherwise the class must extend `StandardTaskSolver` (else
`ValueError`), and it is entered in the registry with `name`, `input_name`
and `output_name` set as class attributes. The `Except.error` cases embed
the raised exceptions. -/
def Solver.register (env : Env) (nm : String) (input_name output_name : Val)
    (cid : Nat) : Except String (Env × Nat) :=
  match lookupAssoc env.registry nm with
  | some existing => Except.ok (env, existing)
  | Option.none =>
    match lookupAssoc env.classes cid with
    | Option.none => Except.error "unknown class object"
    | some c =>
      if c.isStandardTaskSolver then
        let env1 : Env := { env with registry := pyDictInsert env.registry nm cid }
        let env2 := setClassAttr env1 cid "name" (Val.str nm)
        let env3 := setClassAttr env2 cid "input_name" input_name
        let env4 := setClassAttr env3 cid "output_name" output_name
        Except.ok (env4, cid)
      else
        Except.error ("Solver " ++ nm ++ " must extend StandardTaskSolver")

/-- A solver instance: a reference to its class plus the constructor
arguments (`StandardTaskSolver.__init__` stores `args` on the instance). -/
structure SolverInstance where
  cls : Nat
  args : List (String × Val)
deriving Repr, DecidableEq

/-- Embedding of the `input_name` property of `StandardTaskSolver`: it reads
`self.__class__.input_name`, i.e. the class attribute, never instance
storage. -/
def StandardTaskSolver.input_name (env : Env) (inst : SolverInstance) : Option Val :=
  classAttr env inst.cls "input_name"

/-- Embedding of the `output_name` property of `StandardTaskSolver`. -/
def StandardTaskSolver.output_name (env : Env) (inst : SolverInstance) : Option Val :=
  classAttr env inst.cls "output_name"

/-- Embedding of the loop `for key, value in args.items(): setattr(solver_cls,
key, value)` in `OpenFactCheck.init_solver`. -/
def applyArgs (env : Env) (cid : Nat) : List (String × Val) → Env
  | [] => env
  | (k, v) :: rest => applyArgs (setClassAttr env cid k v) cid rest

/-- Embedding of `OpenFactCheck.init_solver`: fails (`RuntimeError`) when the
name is not registered; otherwise applies every configuration key as a class
attribute, instantiates the solver, and returns the instance together with
the class's (possibly overridden) `input_name` and `output_name`. -/
def OpenFactCheck.init_solver (env : Env) (solver_name : String)
    (args : List (String × Val)) :
    Except String (Env × SolverInstance × Option Val × Option Val) :=
  match lookupAssoc env.registry solver_name with
  | Option.none => Except.error (solver_name ++ " not in SOLVER_REGISTRY")
  | some cid =>
    let env' := applyArgs env cid args
    Except.ok (env', ⟨cid, args⟩,
      classAttr env' cid "input_name", classAttr env' cid "output_name")

/-- A pipeline dictionary entry as built by `init_pipeline`: solver instance
with its resolved input and output slot names. -/
def BuiltEntry : Type := SolverInstance × Option Val × Option Val

/-- Embedding of the loop body shared by `OpenFactCheck.init_pipeline` and
`OpenFactCheck.init_pipeline_manually`: `self.pipeline` starts as the empty
dict (the accumulator) and is filled name by name; a name missing from
`solver_configs` or from the registry raises `RuntimeError` at that point,
leaving the partially built pipeline and any class mutations already
performed in place. Returns the final environment, the pipeline dict as
built so far, and `some errorMessage` when construction raised. -/
def OpenFactCheck.init_pipeline_loop (env : Env)
    (solver_configs : List (String × List (String × Val))) :
    List String → List (String × BuiltEntry) →
    Env × List (String × BuiltEntry) × Option String
  | [], acc => (env, acc, Option.none)
  | nm :: rest, acc =>
    match lookupAssoc solver_configs nm with
    | Option.none => (env, acc, some (nm ++ " not in solvers config"))
    | some cfg =>
      match OpenFactCheck.init_solver env nm cfg with
      | Except.error e => (env, acc, some e)
      | Except.ok (env', inst, iname, oname) =>
        OpenFactCheck.init_pipeline_loop env' solver_configs rest
          (pyDictInsert acc nm (inst, iname, oname))

/-- Embedding of `OpenFactCheck.init_pipeline` / `init_pipeline_manually`
applied to an ordered list of required solver names. -/
def OpenFactCheck.init_pipeline (env : Env)
    (solver_configs : List (String × List (String × Val)))
    (names : List String) :
    Env × List (String × BuiltEntry) × Option String :=
  OpenFactCheck.init_pipeline_loop env solver_configs names []

/-- Modelled from the spec (refinement reference for the streaming claim):
"the pipeline's configured order truncated at the first `continue=false` or
failure" — the stage names in configured order, stopping at the first stage
that fails (which yields no event) or deliberately stops (which yields its
event and ends the stream). -/
def specTruncatedOrder : List PipelineEntry → FactCheckerState → List String
  | [], _ => []
  | e :: rest, st =>
    match e.run st with
    | Option.none => []
    | some (cont, out) =>
      if cont then e.name :: specTruncatedOrder rest out else [e.name]

/-- C5: reading a slot that was never written fails with the missing-slot
error (`get` returns `Option.none`, embedding the raised `ValueError`, never
a silent default), and writing a slot that is already present flags the
overwrite (warning emitted) but proceeds: the write lands and nothing is
raised (`set` is total). -/
theorem get_missing_raises_and_set_overwrite_warns :
    (∀ (s : FactCheckerState) (nm : String),
      nm ∉ s.slotNames → s.get nm = Option.none)
    ∧ (∀ (s : FactCheckerState) (nm : String) (v : Val),
      nm ∈ s.slotNames →
        (s.set nm v).1 = true ∧ ((s.set nm v).2).get nm = some v) := by
  constructor
  · intro s nm h
    exact lookupAssoc_eq_none_of_not_mem s.attrs nm h
  · intro s nm v h
    refine ⟨?_, ?_⟩
    · simp only [FactCheckerState.set, FactCheckerState.hasAttr]
      exact lookupAssoc_isSome_of_mem s.attrs nm h
    · simp only [FactCheckerState.set, FactCheckerState.get]
      exact lookupAssoc_pyDictInsert_self s.attrs nm v

/-- Witness for the C5 theorem on a concrete state: `get "nonexistent"`
fails on a freshly initialized state, and a second `set "response"` warns
and writes. -/
theorem get_missing_raises_and_set_overwrite_warns_witness :
    ((FactCheckerState.init Val.null (Val.str "x")).get "nonexistent" = Option.none)
    ∧ (((FactCheckerState.init Val.null (Val.str "x")).set "response" (Val.str "y")).1 = true
      ∧ (((FactCheckerState.init Val.null (Val.str "x")).set "response" (Val.str "y")).2).get "response"
        = some (Val.str "y")) :=
  ⟨get_missing_raises_and_set_overwrite_warns.1
      (FactCheckerState.init Val.null (Val.str "x")) "nonexistent" (by decide),
    get_missing_raises_and_set_overwrite_warns.2
      (FactCheckerState.init Val.null (Val.str "x")) "response" (Val.str "y") (by decide)⟩

/-- C9: the slots `question` and `response` are bound by the constructor
(to `Val.null`, the embedding of Python `None`, when not supplied), so
`get "question"` and `get "response"` always succeed on a fresh state,
returning the constructor values rather than failing loudly. -/
theorem init_binds_question_and_response :
    ∀ (q r : Val),
      (FactCheckerState.init q r).get "question" = some q
      ∧ (FactCheckerState.init q r).get "response" = some r
      ∧ (FactCheckerState.init Val.null Val.null).get "question" = some Val.null
      ∧ (FactCheckerState.init Val.null Val.null).get "response" = some Val.null := by
  intro q r
  refine ⟨?_, ?_, by decide, by decide⟩
  · simp [FactCheckerState.init, FactCheckerState.get, lookupAssoc]
  · simp [FactCheckerState.init, FactCheckerState.get, lookupAssoc]

/-- A claim-processor solver for concrete runs: reads `response`, writes the
extracted claim to `claims`, continues; raises if `response` is absent. -/
def claimprocessorEntry : PipelineEntry where
  name := "claimprocessor"
  input_name := "response"
  output_name := "claims"
  run := fun st =>
    match st.get "response" with
    | some v => some (true, (st.set "claims" v).2)
    | Option.none => Option.none

/-- A retriever solver for concrete runs: reads `claims`, writes evidence to
`claims_with_evidences`, continues; raises if `claims` is absent. -/
def retrieverEntry : PipelineEntry where
  name := "retriever"
  input_name := "claims"
  output_name := "claims_with_evidences"
  run := fun st =>
    match st.get "claims" with
    | some _ => some (true, (st.set "claims_with_evidences" (Val.str "evidence")).2)
    | Option.none => Option.none

/-- A verifier solver whose invocation raises (e.g. a network error). -/
def failingVerifierEntry : PipelineEntry where
  name := "verifier"
  input_name := "claims_with_evidences"
  output_name := "label"
  run := fun _ => Option.none

/-- A retriever solver whose invocation raises. -/
def failingRetrieverEntry : PipelineEntry where
  name := "retriever"
  input_name := "claims"
  output_name := "claims_with_evidences"
  run := fun _ => Option.none

/-- A verifier solver that succeeds, writing `label`. -/
def verifierEntry : PipelineEntry where
  name := "verifier"
  input_name := "claims_with_evidences"
  output_name := "label"
  run := fun st => some (true, (st.set "label" (Val.str "true")).2)

/-- A first-stage solver that raises and whose declared input slot `claims`
is not present in the freshly initialized state. -/
def badFirstEntry : PipelineEntry where
  name := "badfirst"
  input_name := "claims"
  output_name := "claims2"
  run := fun _ => Option.none

/-- After a prefix of stages that all return normally with `cont = true`,
a stage that raises leaves the working state at the last known-good state
and resets the output-name cursor to the failed stage's declared input slot
name, regardless of the remaining entries. -/
theorem runPipeline_prefix_ok_then_raise (p1 : List PipelineEntry) :
    ∀ (st0 stk : FactCheckerState) (idx : Nat) (oname : String)
      (e : PipelineEntry) (p2 : List PipelineEntry),
      runAllOk p1 st0 = some stk → e.run stk = Option.none →
      (runPipeline (p1 ++ e :: p2) idx st0 oname).1 = stk
      ∧ (runPipeline (p1 ++ e :: p2) idx st0 oname).2.1 = e.input_name := by
  induction p1 with
  | nil =>
    intro st0 stk idx oname e p2 h hr
    simp only [runAllOk, Option.some.injEq] at h
    subst h
    simp [runPipeline, hr]
  | cons e1 rest ih =>
    intro st0 stk idx oname e p2 h hr
    rcases he1 : e1.run st0 with _ | ⟨cont, out⟩
    · rw [runAllOk, he1] at h
      simp at h
    · rw [runAllOk, he1] at h
      cases cont with
      | false => simp at h
      | true =>
        have hih := ih out stk (idx + 1) e1.output_name e p2 h hr
        simp only [List.cons_append, runPipeline, he1, if_true]
        exact ⟨hih.1, hih.2⟩

/-- C2: when the first k stages return normally with `cont = true` and the
next stage raises, synchronous evaluation does not propagate the exception:
the terminal value is read from the last known-good state under the failed
stage's declared input slot name, and the remaining stages contribute
nothing (the result is independent of `p2`). With `p1 = [stage1]` and
`p2 = [stage3]` this is exactly the 3-stage case where stage 2 raises: the
terminal value is stage 1's output state addressed by stage 2's input slot. -/
theorem evaluate_recovers_solver_exception (p1 p2 : List PipelineEntry)
    (e : PipelineEntry) (q r : Val) (stk : FactCheckerState)
    (hpre : runAllOk p1 (FactCheckerState.init q r) = some stk)
    (hraise : e.run stk = Option.none) :
    (evaluate (p1 ++ e :: p2) q r).1 = stk.get e.input_name := by
  have h := runPipeline_prefix_ok_then_raise p1 (FactCheckerState.init q r) stk 0
    "response" e p2 hpre hraise
  simp only [evaluate, h.1, h.2]

/-- Witness for the C2 theorem: a concrete 3-stage pipeline in which stage 2
raises; the terminal value is exactly the claim stage 1 produced. -/
theorem evaluate_recovers_solver_exception_witness :
    (evaluate [claimprocessorEntry, failingRetrieverEntry, verifierEntry]
        Val.null (Val.str "The sky is green.")).1
      = some (Val.str "The sky is green.") :=
  (evaluate_recovers_solver_exception [claimprocessorEntry] [verifierEntry]
    failingRetrieverEntry Val.null (Val.str "The sky is green.")
    ⟨[("question", Val.null), ("response", Val.str "The sky is green."),
      ("claims", Val.str "The sky is green.")]⟩
    (by decide) (by decide)).trans (by decide)

/-- C1 counterexample: in a 3-stage run where stage 3 raises, only TWO stage
records are persisted (`persist_output` is called inside the `try` block, so
a raising stage appends no record); the claimed third record with
`continue = false` does not exist. -/
theorem three_stage_failure_persists_two_records :
    ((evaluate [claimprocessorEntry, retrieverEntry, failingVerifierEntry]
        Val.null (Val.str "The sky is green.")).2).map
          (fun rec_ => (rec_.idx, rec_.solver, rec_.cont))
      = [(0, "claimprocessor", true), (1, "retriever", true)]
    ∧ ((evaluate [claimprocessorEntry, retrieverEntry, failingVerifierEntry]
        Val.null (Val.str "The sky is green.")).2).length ≠ 3 := by
  decide

/-- C1 (amended): a stage record is appended for every stage that returns
normally; a stage that raises appends none. In a 3-stage run whose third
stage raises, exactly two records are persisted (both with the returned
continuation flags) and the run returns the second stage's output addressed
by the third stage's input slot without raising. -/
theorem evaluate_records_for_three_stage_run_with_failing_third
    (e1 e2 e3 : PipelineEntry) (q r : Val) (st1 st2 : FactCheckerState) (v : Val)
    (h1 : e1.run (FactCheckerState.init q r) = some (true, st1))
    (h2 : e2.run st1 = some (true, st2))
    (h3 : e3.run st2 = Option.none)
    (h4 : st2.get e3.input_name = some v) :
    evaluate [e1, e2, e3] q r
      = (some v, [⟨0, e1.name, true, st1.to_dict⟩, ⟨1, e2.name, true, st2.to_dict⟩]) := by
  simp [evaluate, runPipeline, h1, h2, h3, h4]

/-- Witness for the amended C1 theorem on the spec's example scenario. -/
theorem evaluate_records_for_three_stage_run_with_failing_third_witness :
    evaluate [claimprocessorEntry, retrieverEntry, failingVerifierEntry]
        Val.null (Val.str "The sky is green.")
      = (some (Val.str "evidence"),
        [⟨0, "claimprocessor", true,
          [("question", Val.null), ("response", Val.str "The sky is green."),
            ("claims", Val.str "The sky is green.")]⟩,
          ⟨1, "retriever", true,
          [("question", Val.null), ("response", Val.str "The sky is green."),
            ("claims", Val.str "The sky is green."),
            ("claims_with_evidences", Val.str "evidence")]⟩]) :=
  evaluate_records_for_three_stage_run_with_failing_third
    claimprocessorEntry retrieverEntry failingVerifierEntry
    Val.null (Val.str "The sky is green.")
    ⟨[("question", Val.null), ("response", Val.str "The sky is green."),
      ("claims", Val.str "The sky is green.")]⟩
    ⟨[("question", Val.null), ("response", Val.str "The sky is green."),
      ("claims", Val.str "The sky is green."),
      ("claims_with_evidences", Val.str "evidence")]⟩
    (Val.str "evidence")
    (by decide) (by decide) (by decide) (by decide)

/-- C7 counterexample: a pipeline whose first stage raises and whose declared
input slot (`claims`) is absent from the initial state makes the final
`state.get` raise (`Option.none`): synchronous evaluation does NOT return
the original input and DOES throw in this case. -/
theorem first_stage_failure_can_still_raise :
    (evaluate [badFirstEntry] Val.null (Val.str "hello")).1 = Option.none := by
  decide

/-- C7 (amended): if the very first stage raises and its declared input slot
is `response`, synchronous evaluation returns the original unmodified input
value under that slot and does not raise. -/
theorem first_stage_failure_returns_original_input (p2 : List PipelineEntry)
    (e : PipelineEntry) (q r : Val)
    (hraise : e.run (FactCheckerState.init q r) = Option.none)
    (hslot : e.input_name = "response") :
    (evaluate (e :: p2) q r).1 = some r := by
  have h := runPipeline_prefix_ok_then_raise [] (FactCheckerState.init q r)
    (FactCheckerState.init q r) 0 "response" e p2 rfl hraise
  simp only [List.nil_append] at h
  simp only [evaluate, h.1, h.2, hslot]
  simp [FactCheckerState.init, FactCheckerState.get, lookupAssoc]

/-- A first-stage claim processor that raises; its input slot is `response`. -/
def failingClaimprocessorEntry : PipelineEntry where
  name := "claimprocessor"
  input_name := "response"
  output_name := "claims"
  run := fun _ => Option.none

/-- Witness for the amended C7 theorem. -/
theorem first_stage_failure_returns_original_input_witness :
    (evaluate [failingClaimprocessorEntry, retrieverEntry]
        Val.null (Val.str "original response")).1
      = some (Val.str "original response") :=
  first_stage_failure_returns_original_input [retrieverEntry]
    failingClaimprocessorEntry Val.null (Val.str "original response")
    (by decide) rfl

/-- The solver-name fields of the events yielded by the streaming loop equal
the configured order of the remaining entries truncated at the first raising
or deliberately stopping stage. -/
theorem streamPipeline_names (p : List PipelineEntry) :
    ∀ (idx : Nat) (st : FactCheckerState),
      ((streamPipeline p idx st).1).map StreamEvent.solver_name
        = specTruncatedOrder p st := by
  induction p with
  | nil => intro idx st; rfl
  | cons e rest ih =>
    intro idx st
    rcases he : e.run st with _ | ⟨cont, out⟩
    · simp [streamPipeline, specTruncatedOrder, he]
    · cases cont with
      | false => simp [streamPipeline, specTruncatedOrder, he]
      | true => simp [streamPipeline, specTruncatedOrder, he, ih]

/-- Every event yielded by the streaming loop carries the data of the stage
it was yielded for: its index locates the pipeline entry, the name and slot
names are the entry's, and invoking the entry on the event's input snapshot
returns exactly the event's continuation flag and output snapshot. -/
theorem streamPipeline_event_payload (p : List PipelineEntry) :
    ∀ (idx : Nat) (st : FactCheckerState) (ev : StreamEvent),
      ev ∈ (streamPipeline p idx st).1 →
      ∃ (j : Nat) (h : j < p.length),
        ev.index = idx + j
        ∧ (p.get ⟨j, h⟩).name = ev.solver_name
        ∧ (p.get ⟨j, h⟩).input_name = ev.input_name
        ∧ (p.get ⟨j, h⟩).output_name = ev.output_name
        ∧ (p.get ⟨j, h⟩).run ⟨ev.input⟩ = some (ev.continue_run, ⟨ev.output⟩) := by
  induction p with
  | nil =>
    intro idx st ev hmem
    simp [streamPipeline] at hmem
  | cons e rest ih =>
    intro idx st ev hmem
    rcases he : e.run st with _ | ⟨cont, out⟩
    · rw [streamPipeline, he] at hmem
      simp at hmem
    · cases cont with
      | false =>
        rw [streamPipeline, he] at hmem
        simp at hmem
        subst hmem
        exact ⟨0, by simp, by simp, rfl, rfl, rfl, by simpa using he⟩
      | true =>
        rw [streamPipeline, he] at hmem
        simp at hmem
        rcases hmem with rfl | hmem
        · exact ⟨0, by simp, by simp, rfl, rfl, rfl, by simpa using he⟩
        · obtain ⟨j, hj, hidx, hname, hin, hout, hrun⟩ := ih (idx + 1) out ev hmem
          refine ⟨j + 1, by simpa using Nat.succ_lt_succ hj, by omega, ?_, ?_, ?_, ?_⟩
          · simpa using hname
          · simpa using hin
          · simpa using hout
          · simpa using hrun

/-- C6: for a fixed input and deterministic solvers, the `solver_name` fields
of the events yielded by `evaluate_streaming` equal the pipeline's
configured order truncated at the first stage that fails (which yields no
event) or returns `continue = false` (which yields the final event); and
every yielded event carries the stage index (locating its pipeline entry),
that entry's solver name and input/output slot names, and input/output state
snapshots consistent with the entry's invocation, together with the
continuation flag it returned. -/
theorem streaming_order_and_event_payload (p : List PipelineEntry) (q r : Val) :
    ((evaluate_streaming p q r).map StreamEvent.solver_name
      = specTruncatedOrder p (FactCheckerState.init q r))
    ∧ ∀ ev ∈ evaluate_streaming p q r,
        ∃ (h : ev.index < p.length),
          (p.get ⟨ev.index, h⟩).name = ev.solver_name
          ∧ (p.get ⟨ev.index, h⟩).input_name = ev.input_name
          ∧ (p.get ⟨ev.index, h⟩).output_name = ev.output_name
          ∧ (p.get ⟨ev.index, h⟩).run ⟨ev.input⟩
              = some (ev.continue_run, ⟨ev.output⟩) := by
  constructor
  · exact streamPipeline_names p 0 (FactCheckerState.init q r)
  · intro ev hmem
    obtain ⟨j, hj, hidx, hname, hin, hout, hrun⟩ :=
      streamPipeline_event_payload p 0 (FactCheckerState.init q r) ev hmem
    have hje : ev.index = j := by omega
    rw [hje]
    exact ⟨hj, hname, hin, hout, hrun⟩

/-- A concrete streaming pipeline: the claim processor succeeds, the
retriever raises, the verifier is never reached. -/
def streamingSamplePipeline : List PipelineEntry :=
  [claimprocessorEntry, failingRetrieverEntry, verifierEntry]

/-- The single event yielded by `streamingSamplePipeline` on input `"s"`. -/
def streamingSampleEvent : StreamEvent :=
  ⟨0, "claimprocessor", "response", "claims",
    [("question", Val.null), ("response", Val.str "s")],
    [("question", Val.null), ("response", Val.str "s"), ("claims", Val.str "s")],
    true⟩

/-- Witness for the C6 theorem on a concrete pipeline and event. -/
theorem streaming_order_and_event_payload_witness :
    ((evaluate_streaming streamingSamplePipeline Val.null (Val.str "s")).map
        StreamEvent.solver_name
      = specTruncatedOrder streamingSamplePipeline
          (FactCheckerState.init Val.null (Val.str "s")))
    ∧ (streamingSamplePipeline.get ⟨streamingSampleEvent.index, by decide⟩).name
        = streamingSampleEvent.solver_name
    ∧ (streamingSamplePipeline.get ⟨streamingSampleEvent.index, by decide⟩).input_name
        = streamingSampleEvent.input_name
    ∧ (streamingSamplePipeline.get ⟨streamingSampleEvent.index, by decide⟩).output_name
        = streamingSampleEvent.output_name
    ∧ (streamingSamplePipeline.get ⟨streamingSampleEvent.index, by decide⟩).run
          ⟨streamingSampleEvent.input⟩
        = some (streamingSampleEvent.continue_run, ⟨streamingSampleEvent.output⟩) := by
  obtain ⟨h, h1, h2, h3, h4⟩ :=
    (streaming_order_and_event_payload streamingSamplePipeline Val.null (Val.str "s")).2
      streamingSampleEvent (by decide)
  exact ⟨(streaming_order_and_event_payload streamingSamplePipeline Val.null
    (Val.str "s")).1, h1, h2, h3, h4⟩

/-- A claim-processor solver class extending `StandardTaskSolver`, with its
registration-time attributes. -/
def clsA : SolverClassData :=
  ⟨true, [("name", Val.str "a"), ("input_name", Val.str "response"),
    ("output_name", Val.str "claims")]⟩

/-- A verifier solver class extending `StandardTaskSolver`, with a slot
signature different from `clsA`. -/
def clsB : SolverClassData :=
  ⟨true, [("name", Val.str "b"), ("input_name", Val.str "claims"),
    ("output_name", Val.str "label")]⟩

/-- An environment in which only the name `a` is registered (to class 0);
class 1 exists but is unregistered. -/
def envA : Env := ⟨[("a", 0)], [(0, clsA), (1, clsB)]⟩

/-- An environment in which both `a` and `b` are registered. -/
def envAB : Env := ⟨[("a", 0), ("b", 1)], [(0, clsA), (1, clsB)]⟩

/-- C4 counterexample: registering the already-taken name `a` with a
DIFFERENT class (class 1, whose slot signature also differs from the
registered class 0) does not fail at all — it silently returns the class
originally registered and leaves the registry unchanged. No duplicate
registration conflict exists in the code. -/
theorem duplicate_registration_never_conflicts :
    Solver.register envA "a" (Val.str "different_input") (Val.str "different_output") 1
      = Except.ok (envA, 0)
    ∧ lookupAssoc envA.registry "a" = some 0
    ∧ clsB ≠ clsA :=
  ⟨rfl, rfl, by decide⟩

/-- C4 (amended): re-registering an existing name is always a silent no-op,
regardless of the class or slot signature supplied: the call succeeds,
returns the originally registered class, and leaves the environment (and so
the registry's single entry for that name) unchanged. Identical
re-registration is therefore idempotent, and no conflict error is ever
raised for a duplicate name. -/
theorem register_existing_name_is_noop (env : Env) (nm : String)
    (iname oname : Val) (cid cid0 : Nat)
    (h : lookupAssoc env.registry nm = some cid0) :
    Solver.register env nm iname oname cid = Except.ok (env, cid0) := by
  simp [Solver.register, h]

/-- Witness for the amended C4 theorem: identical re-registration of `a`
(same class 0, same slot signature) succeeds and keeps the registry as it
was — exactly one entry for `a`. -/
theorem register_existing_name_is_noop_witness :
    Solver.register envA "a" (Val.str "response") (Val.str "claims") 0
      = Except.ok (envA, 0) :=
  register_existing_name_is_noop envA "a" (Val.str "response") (Val.str "claims")
    0 0 (by decide)

/-- `init_solver` on a registered name always succeeds, mutating the class
with every configuration key and reading the slot names back from the
mutated class. -/
theorem init_solver_ok_of_registered (env : Env) (nm : String)
    (args : List (String × Val)) (cid : Nat)
    (h : lookupAssoc env.registry nm = some cid) :
    OpenFactCheck.init_solver env nm args
      = Except.ok (applyArgs env cid args, ⟨cid, args⟩,
          classAttr (applyArgs env cid args) cid "input_name",
          classAttr (applyArgs env cid args) cid "output_name") := by
  simp [OpenFactCheck.init_solver, h]

/-- The configuration mapping that configures only the solver `a`,
overriding its input slot name. -/
def configsOnlyA : List (String × List (String × Val)) :=
  [("a", [("input_name", Val.str "overridden")])]

/-- C3 counterexample: building `["a", "b"]` when `b` is missing from the
solver configuration raises the expected error, but AFTER solver `a` has
been instantiated: the partially built pipeline still contains the entry
for `a`, and the configuration of `a` has observably mutated class 0's
attributes (its `input_name` changed from `response` to `overridden`). -/
theorem pipeline_build_failure_leaves_side_effects :
    ((OpenFactCheck.init_pipeline envA configsOnlyA ["a", "b"]).2.2
        = some "b not in solvers config")
    ∧ ((OpenFactCheck.init_pipeline envA configsOnlyA ["a", "b"]).2.1).map Prod.fst
        = ["a"]
    ∧ classAttr (OpenFactCheck.init_pipeline envA configsOnlyA ["a", "b"]).1
        0 "input_name" = some (Val.str "overridden")
    ∧ classAttr envA 0 "input_name" = some (Val.str "response") := by
  refine ⟨rfl, rfl, rfl, rfl⟩

/-- C3 (amended): when a requested name is missing from the solver
configuration, pipeline construction raises at the point that name is
reached — but entries earlier in the list have already been instantiated
and configured: their class-attribute mutations and their entries in the
partially built pipeline persist. -/
theorem pipeline_build_raises_after_instantiating_earlier_entries
    (env : Env) (configs : List (String × List (String × Val)))
    (good bad : String) (cfg : List (String × Val)) (cid : Nat)
    (hcfg : lookupAssoc configs good = some cfg)
    (hreg : lookupAssoc env.registry good = some cid)
    (hbad : lookupAssoc configs bad = Option.none) :
    OpenFactCheck.init_pipeline env configs [good, bad]
      = (applyArgs env cid cfg,
        [(good, (⟨cid, cfg⟩,
          classAttr (applyArgs env cid cfg) cid "input_name",
          classAttr (applyArgs env cid cfg) cid "output_name"))],
        some (bad ++ " not in solvers config")) := by
  simp [OpenFactCheck.init_pipeline, OpenFactCheck.init_pipeline_loop,
    hcfg, hbad, init_solver_ok_of_registered env good cfg cid hreg, pyDictInsert]

/-- Witness for the amended C3 theorem on the concrete environment. -/
theorem pipeline_build_raises_after_instantiating_earlier_entries_witness :
    OpenFactCheck.init_pipeline envA configsOnlyA ["a", "b"]
      = (applyArgs envA 0 [("input_name", Val.str "overridden")],
        [("a", (⟨0, [("input_name", Val.str "overridden")]⟩,
          classAttr (applyArgs envA 0 [("input_name", Val.str "overridden")]) 0 "input_name",
          classAttr (applyArgs envA 0 [("input_name", Val.str "overridden")]) 0 "output_name"))],
        some ("b" ++ " not in solvers config")) :=
  pipeline_build_raises_after_instantiating_earlier_entries envA configsOnlyA
    "a" "b" [("input_name", Val.str "overridden")] 0 rfl rfl rfl

theorem pyDictInsert_map_fst_of_not_mem {κ α : Type} [DecidableEq κ]
    (l : List (κ × α)) (k : κ) (v : α) (h : k ∉ l.map Prod.fst) :
    (pyDictInsert l k v).map Prod.fst = l.map Prod.fst ++ [k] := by
  induction l with
  | nil => rfl
  | cons p rest ih =>
    obtain ⟨k', v'⟩ := p
    simp only [List.map_cons, List.mem_cons] at h
    push_neg at h
    simp only [pyDictInsert, if_neg (Ne.symm h.1), List.map_cons,
      List.cons_append, List.cons.injEq, true_and]
    exact ih h.2

/-- Configuring a solver mutates only the class table, never the registry. -/
theorem applyArgs_registry (env : Env) (cid : Nat) (args : List (String × Val)) :
    (applyArgs env cid args).registry = env.registry := by
  induction args generalizing env with
  | nil => rfl
  | cons kv rest ih =>
    obtain ⟨k, v⟩ := kv
    rw [applyArgs, ih]
    rfl

/-- The pipeline-construction loop, on a duplicate-free list of names all
present in the configuration and the registry, never raises and appends
one entry per name in order. -/
theorem init_pipeline_loop_keys (names : List String) :
    ∀ (env : Env) (configs : List (String × List (String × Val)))
      (acc : List (String × BuiltEntry)),
      (∀ nm ∈ names, (lookupAssoc configs nm).isSome
        ∧ (lookupAssoc env.registry nm).isSome) →
      (∀ nm ∈ names, nm ∉ acc.map Prod.fst) →
      names.Nodup →
      ((OpenFactCheck.init_pipeline_loop env configs names acc).2.1).map Prod.fst
          = acc.map Prod.fst ++ names
        ∧ (OpenFactCheck.init_pipeline_loop env configs names acc).2.2
          = Option.none := by
  induction names with
  | nil =>
    intro env configs acc _ _ _
    simp [OpenFactCheck.init_pipeline_loop]
  | cons nm rest ih =>
    intro env configs acc hvalid hdisj hnd
    obtain ⟨hcfg, hreg⟩ := hvalid nm (List.mem_cons_self nm rest)
    obtain ⟨cfg, hcfg⟩ := Option.isSome_iff_exists.mp hcfg
    obtain ⟨cid, hreg⟩ := Option.isSome_iff_exists.mp hreg
    simp only [List.nodup_cons] at hnd
    have hstep : OpenFactCheck.init_pipeline_loop env configs (nm :: rest) acc
        = OpenFactCheck.init_pipeline_loop (applyArgs env cid cfg) configs rest
            (pyDictInsert acc nm (⟨cid, cfg⟩,
              classAttr (applyArgs env cid cfg) cid "input_name",
              classAttr (applyArgs env cid cfg) cid "output_name")) := by
      simp [OpenFactCheck.init_pipeline_loop, hcfg,
        init_solver_ok_of_registered env nm cfg cid hreg]
    have hkeys : (pyDictInsert acc nm (⟨cid, cfg⟩,
        classAttr (applyArgs env cid cfg) cid "input_name",
        classAttr (applyArgs env cid cfg) cid "output_name")).map Prod.fst
        = acc.map Prod.fst ++ [nm] :=
      pyDictInsert_map_fst_of_not_mem acc nm _
        (hdisj nm (List.mem_cons_self nm rest))
    have hrest := ih (applyArgs env cid cfg) configs
      (pyDictInsert acc nm (⟨cid, cfg⟩,
        classAttr (applyArgs env cid cfg) cid "input_name",
        classAttr (applyArgs env cid cfg) cid "output_name"))
      (by
        intro nm' hmem'
        refine ⟨(hvalid nm' (List.mem_cons_of_mem nm hmem')).1, ?_⟩
        rw [applyArgs_registry]
        exact (hvalid nm' (List.mem_cons_of_mem nm hmem')).2)
      (by
        intro nm' hmem'
        rw [hkeys]
        simp only [List.mem_append, List.mem_singleton]
        push_neg
        refine ⟨hdisj nm' (List.mem_cons_of_mem nm hmem'), ?_⟩
        intro hne
        exact hnd.1 (hne ▸ hmem'))
      hnd.2
    rw [hstep, hrest.2, hrest.1, hkeys]
    simp

/-- C8 (amended): for every duplicate-free list of solver names all present
in the registry and in the solver-configuration mapping, pipeline
construction succeeds and the built pipeline lists its entries in exactly
the caller's name order. -/
theorem pipeline_build_preserves_order (env : Env)
    (configs : List (String × List (String × Val))) (names : List String)
    (hnd : names.Nodup)
    (hvalid : ∀ nm ∈ names, (lookupAssoc configs nm).isSome
      ∧ (lookupAssoc env.registry nm).isSome) :
    ((OpenFactCheck.init_pipeline env configs names).2.1).map Prod.fst = names
    ∧ (OpenFactCheck.init_pipeline env configs names).2.2 = Option.none := by
  have h := init_pipeline_loop_keys names env configs [] hvalid (by simp) hnd
  simpa [OpenFactCheck.init_pipeline] using h

/-- The configuration mapping providing (empty) configurations for both
registered solvers. -/
def configsAB : List (String × List (String × Val)) := [("a", []), ("b", [])]

/-- C8 counterexample: with a duplicate name in the requested list, the
built pipeline is a dict keyed by name, so the returned entry order
(`["a", "b"]`) is NOT the input list order (`["a", "b", "a"]`). -/
theorem pipeline_build_duplicate_name_order_counterexample :
    ((OpenFactCheck.init_pipeline envAB configsAB ["a", "b", "a"]).2.1).map Prod.fst
        = ["a", "b"]
    ∧ ["a", "b"] ≠ ["a", "b", "a"] := by
  exact ⟨rfl, by decide⟩

/-- Witness for the amended C8 theorem on the concrete environment. -/
theorem pipeline_build_preserves_order_witness :
    ((OpenFactCheck.init_pipeline envAB configsAB ["a", "b"]).2.1).map Prod.fst
        = ["a", "b"]
    ∧ (OpenFactCheck.init_pipeline envAB configsAB ["a", "b"]).2.2 = Option.none :=
  pipeline_build_preserves_order envAB configsAB ["a", "b"] (by decide) (by decide)

theorem lookupAssoc_pyDictInsert_other {κ α : Type} [DecidableEq κ]
    (l : List (κ × α)) (k k' : κ) (v : α) (h : k' ≠ k) :
    lookupAssoc (pyDictInsert l k v) k' = lookupAssoc l k' := by
  induction l with
  | nil => simp [pyDictInsert, lookupAssoc, if_neg (Ne.symm h)]
  | cons p rest ih =>
    obtain ⟨k0, v0⟩ := p
    by_cases he : k0 = k
    · subst he
      simp [pyDictInsert, lookupAssoc, if_neg (Ne.symm h)]
    · simp [pyDictInsert, lookupAssoc, he, ih]

theorem updateCls_lookupAssoc_self (l : List (Nat × SolverClassData)) (cid : Nat)
    (f : SolverClassData → SolverClassData) :
    lookupAssoc (updateCls l cid f) cid = (lookupAssoc l cid).map f := by
  induction l with
  | nil => rfl
  | cons p rest ih =>
    obtain ⟨c, d⟩ := p
    by_cases he : c = cid
    · simp [updateCls, lookupAssoc, he]
    · simp [updateCls, lookupAssoc, he, ih]

theorem classAttr_setClassAttr_self (env : Env) (cid : Nat) (k : String) (v : Val)
    (h : (lookupAssoc env.classes cid).isSome) :
    classAttr (setClassAttr env cid k v) cid k = some v := by
  obtain ⟨c, hc⟩ := Option.isSome_iff_exists.mp h
  simp [classAttr, setClassAttr, updateCls_lookupAssoc_self, hc,
    lookupAssoc_pyDictInsert_self]

theorem classAttr_setClassAttr_other (env : Env) (cid : Nat) (k k' : String)
    (v : Val) (h : k' ≠ k) :
    classAttr (setClassAttr env cid k v) cid k' = classAttr env cid k' := by
  rcases hc : lookupAssoc env.classes cid with _ | c
  · simp [classAttr, setClassAttr, updateCls_lookupAssoc_self, hc]
  · simp [classAttr, setClassAttr, updateCls_lookupAssoc_self, hc,
      lookupAssoc_pyDictInsert_other c.attrs k k' v h]

theorem setClassAttr_classes_isSome (env : Env) (cid : Nat) (k : String) (v : Val) :
    (lookupAssoc (setClassAttr env cid k v).classes cid).isSome
      = (lookupAssoc env.classes cid).isSome := by
  simp [setClassAttr, updateCls_lookupAssoc_self]

theorem classAttr_applyArgs_not_mem (args : List (String × Val)) :
    ∀ (env : Env) (cid : Nat) (k : String), k ∉ args.map Prod.fst →
      classAttr (applyArgs env cid args) cid k = classAttr env cid k := by
  induction args with
  | nil => intro env cid k _; rfl
  | cons kv rest ih =>
    obtain ⟨k0, v0⟩ := kv
    intro env cid k hk
    simp only [List.map_cons, List.mem_cons] at hk
    push_neg at hk
    rw [applyArgs, ih _ _ _ hk.2,
      classAttr_setClassAttr_other env cid k0 k v0 hk.1]

/-- After applying a configuration with duplicate-free keys, a configured
key reads back its configured value from the class. -/
theorem classAttr_applyArgs_of_lookup (args : List (String × Val)) :
    ∀ (env : Env) (cid : Nat) (k : String) (v : Val),
      (args.map Prod.fst).Nodup →
      lookupAssoc args k = some v →
      (lookupAssoc env.classes cid).isSome →
      classAttr (applyArgs env cid args) cid k = some v := by
  induction args with
  | nil =>
    intro env cid k v _ h _
    simp [lookupAssoc] at h
  | cons kv rest ih =>
    obtain ⟨k0, v0⟩ := kv
    intro env cid k v hnd hl hsome
    simp only [List.map_cons, List.nodup_cons] at hnd
    by_cases he : k0 = k
    · subst he
      rw [lookupAssoc, if_pos rfl] at hl
      rw [applyArgs, classAttr_applyArgs_not_mem rest _ _ _ hnd.1,
        classAttr_setClassAttr_self env cid k0 v0 hsome]
      exact hl
    · rw [lookupAssoc, if_neg he] at hl
      rw [applyArgs]
      exact ih (setClassAttr env cid k0 v0) cid k v hnd.2 hl
        (by rw [setClassAttr_classes_isSome]; exact hsome)

/-- C10: `init_solver` applies every configuration key by `setattr` on the
registered solver CLASS, not on the instance: an `input_name` override lands
on the class, the returned input slot name is the override, and every
instance of that class — whether created before or after the call — reads
the overridden value through the class attribute property. -/
theorem init_solver_applies_config_to_class (env env' : Env) (nm : String)
    (args : List (String × Val)) (inst : SolverInstance)
    (iname oname : Option Val) (v : Val)
    (hok : OpenFactCheck.init_solver env nm args
      = Except.ok (env', inst, iname, oname))
    (hcls : (lookupAssoc env.classes inst.cls).isSome)
    (hnd : (args.map Prod.fst).Nodup)
    (hv : lookupAssoc args "input_name" = some v) :
    iname = some v
    ∧ ∀ (other : SolverInstance), other.cls = inst.cls →
        StandardTaskSolver.input_name env' other = some v := by
  rcases hreg : lookupAssoc env.registry nm with _ | cid
  · rw [OpenFactCheck.init_solver, hreg] at hok
    simp at hok
  · rw [OpenFactCheck.init_solver, hreg] at hok
    simp only [Except.ok.injEq, Prod.mk.injEq] at hok
    obtain ⟨henv, hinst, hin, hon⟩ := hok
    subst henv
    subst hinst
    subst hin
    constructor
    · exact classAttr_applyArgs_of_lookup args env cid "input_name" v hnd hv hcls
    · intro other hother
      rw [StandardTaskSolver.input_name, hother]
      exact classAttr_applyArgs_of_lookup args env cid "input_name" v hnd hv hcls

/-- The environment resulting from configuring solver `a` in `envA` with an
`input_name` override of `"fresh"`. -/
def envFresh : Env :=
  ⟨[("a", 0)],
    [(0, ⟨true, [("name", Val.str "a"), ("input_name", Val.str "fresh"),
      ("output_name", Val.str "claims")]⟩), (1, clsB)]⟩

/-- Witness for the C10 theorem: after configuring solver `a` with
`input_name := "fresh"`, an instance of class 0 created BEFORE the call
(with no constructor arguments) observes the overridden slot name. -/
theorem init_solver_applies_config_to_class_witness :
    StandardTaskSolver.input_name envFresh ⟨0, []⟩ = some (Val.str "fresh") :=
  (init_solver_applies_config_to_class envA envFresh "a"
    [("input_name", Val.str "fresh")] ⟨0, [("input_name", Val.str "fresh")]⟩
    (some (Val.str "fresh")) (some (Val.str "claims")) (Val.str "fresh")
    rfl (by decide) (by decide) rfl).2 ⟨0, []⟩ rfl
